import Mathlib

/-!
# Verification of the Swiggy Cupid session-orchestration engine

Shallow embedding of the room/quiz/matching/action-lock logic of the
`swiggy-mcp-adk` repository (TypeScript), together with proofs about it.

Source files embedded:
* `src/services/quiz.ts` — `QuizService.submitAnswer` / `isComplete` / `getNextQuestion`
* `src/services/room.ts` — `RoomService.joinRoom`
* `src/agent/tools/matching.ts` — `COMPATIBILITY_MAPS`, `calculateQuestionScore`,
  `calculateMatchTool.execute`
* `src/server/websocket.ts` — action-choice interception (`processMessage`),
  the `matchSent` guard, and `connectAndInjectTools`
* `src/agent/agent.ts` — the process-wide `agentTools` array

Machine integers of the source are small non-negative counters and scores, so
they are modelled as `Nat`; `Math.round` of the non-negative rational
`num / den` is modelled exactly as `⌊num / den + 1/2⌋` (for all reachable
scores the rational is far from a half-integer, so the IEEE-double evaluation
in JS agrees with the exact rational rounding).
-/

namespace SwiggyCupid

/-- A recorded quiz answer (`QuizAnswer` in `models/types.ts`):
a question id together with the free-form answer string. -/
structure QuizAnswer where
  questionId : Nat
  answer : String
deriving Repr, DecidableEq

/-- A quiz question: id and scoring category (from `models/types.ts`). -/
structure Question where
  id : Nat
  category : String
deriving Repr, DecidableEq

/-- The fixed question set `QUIZ_QUESTIONS` of `models/types.ts` (staged as
the second segment of `src/unnamed/part_004`, lines 284–341): exactly 6
questions with ids 1–6 and categories cuisine, spice, diet, budget, mood,
dish_type, in that order.  The source's `text` and `options` fields are
dropped here: no embedded logic reads them (answers are accepted even
outside `options`, and scoring keys on `id` and `category` only). -/
def QUIZ_QUESTIONS : List Question :=
  [⟨1, "cuisine"⟩, ⟨2, "spice"⟩, ⟨3, "diet"⟩,
   ⟨4, "budget"⟩, ⟨5, "mood"⟩, ⟨6, "dish_type"⟩]

/-- The ids of the fixed question set. -/
def quizIds : List Nat := QUIZ_QUESTIONS.map (·.id)

/-! ## QuizService (`src/services/quiz.ts`) -/

/-- Outcome tag of `QuizService.submitAnswer`: the source returns
`{success: true}` or `{success: false, error: "Invalid question ID: …"}` /
`{success: false, error: "Question … already answered"}`. -/
inductive SubmitResult where
  | success
  | invalidQuestion
  | alreadyAnswered
deriving Repr, DecidableEq

/-- `QuizService.submitAnswer` (quiz.ts lines 16–34): looks the id up in the
fixed question set (failure: invalid id), rejects an id already present in
the list (failure: already answered), otherwise appends the answer (the
source mutates `answers` by `push`; here the new list is returned).
On failure the list is returned unchanged — the source does not touch it. -/
def submitAnswer (answers : List QuizAnswer) (questionId : Nat)
    (answer : String) : List QuizAnswer × SubmitResult :=
  match QUIZ_QUESTIONS.find? (fun q => q.id == questionId) with
  | none => (answers, .invalidQuestion)
  | some _ =>
    if answers.any (fun a => a.questionId == questionId) then
      (answers, .alreadyAnswered)
    else
      (answers ++ [⟨questionId, answer⟩], .success)

/-- `QuizService.isComplete` (quiz.ts lines 39–41):
`answers.length >= QUIZ_QUESTIONS.length`. -/
def isComplete (answers : List QuizAnswer) : Bool :=
  decide (QUIZ_QUESTIONS.length ≤ answers.length)

/-- `QuizService.getNextQuestion` (quiz.ts lines 7–10): first question of the
fixed order whose id is absent from the answer list. -/
def getNextQuestion (answers : List QuizAnswer) : Option Question :=
  QUIZ_QUESTIONS.find? (fun q => !(answers.any (fun a => a.questionId == q.id)))

/-- A sequence of `submitAnswer` calls, all of which must succeed; `none`
when any call in the sequence fails. -/
def submitAll (answers : List QuizAnswer) :
    List (Nat × String) → Option (List QuizAnswer)
  | [] => some answers
  | (qid, ans) :: rest =>
    match submitAnswer answers qid ans with
    | (l, .success) => submitAll l rest
    | _ => none

/-! ## Room data model and RoomService (`src/services/room.ts`) -/

/-- A participant (`Partner` in `models/types.ts`): identifier, display name,
contact reference, the ordered answer list and the completion flag. -/
structure Partner where
  userId : String
  name : String
  phone : String
  quizAnswers : List QuizAnswer
  quizComplete : Bool
deriving Repr, DecidableEq

/-- One row of the match breakdown (`QuestionMatch` in `models/types.ts`). -/
structure QuestionMatch where
  questionId : Nat
  partner1Answer : String
  partner2Answer : String
  score : Nat
deriving Repr, DecidableEq

/-- One recommendation card of the match result. -/
structure Recommendation where
  rtype : String
  title : String
  description : String
  matchedPreferences : List String
deriving Repr, DecidableEq

/-- The stored compatibility result (`MatchResult` in `models/types.ts`). -/
structure MatchResult where
  compatibility : Nat
  breakdown : List QuestionMatch
  recommendations : List Recommendation
deriving Repr, DecidableEq

/-- The `Room` entity (`models/types.ts`, built in `RoomService.createRoom`). -/
structure Room where
  roomId : String
  partner1 : Partner
  partner2 : Option Partner
  matchResult : Option MatchResult
  sessionId : String
  createdAt : Nat
  chosenAction : Option String
  chosenBy : Option String
deriving Repr, DecidableEq

/-- `RoomService.joinRoom` on an existing room (room.ts lines 32–58): full if
the second slot is occupied, already-in if the joiner's id equals the first
participant's id, otherwise the second slot is filled with the joiner and an
empty answer list. The `room: null` failures of the source are modelled by
returning the unchanged room together with the error string of the source. -/
def joinRoom (room : Room) (userId name phone : String) :
    Room × Option String :=
  if room.partner2.isSome then
    (room, some "Room is full")
  else if room.partner1.userId == userId then
    (room, some "You are already in this room")
  else
    ({ room with partner2 := some ⟨userId, name, phone, [], false⟩ }, none)

/-- `RoomService.getPartner` (room.ts): the participant of the room with the
given id, if any. -/
def getPartner (room : Room) (userId : String) : Option Partner :=
  if room.partner1.userId == userId then some room.partner1
  else match room.partner2 with
    | some p2 => if p2.userId == userId then some p2 else none
    | none => none

/-! ## Scoring engine (`src/agent/tools/matching.ts`) -/

/-- `COMPATIBILITY_MAPS` (matching.ts lines 202–243), as a function from
category and answer to the list of "compatible" answers; a missing key
yields `[]` (the `?? []` of the source). -/
def compatibilityMap (category answer : String) : List String :=
  match category with
  | "cuisine" =>
    match answer with
    | "North Indian" => ["Street Food", "South Indian"]
    | "South Indian" => ["North Indian", "Street Food"]
    | "Chinese" => ["Italian", "Sushi/Asian"]
    | "Italian" => ["Continental", "Chinese"]
    | "Continental" => ["Italian", "Fine Dining"]
    | "Street Food" => ["North Indian", "South Indian"]
    | _ => []
  | "spice" =>
    match answer with
    | "Mild" => ["Medium"]
    | "Medium" => ["Mild", "Spicy"]
    | "Spicy" => ["Medium", "Extra Spicy"]
    | "Extra Spicy" => ["Spicy"]
    | _ => []
  | "diet" =>
    match answer with
    | "Veg" => ["Vegan", "Egg only"]
    | "Non-Veg" => ["Egg only"]
    | "Egg only" => ["Veg", "Non-Veg"]
    | "Vegan" => ["Veg"]
    | _ => []
  | "budget" =>
    match answer with
    | "₹200-400" => ["₹400-700"]
    | "₹400-700" => ["₹200-400", "₹700-1200"]
    | "₹700-1200" => ["₹400-700", "₹1200+"]
    | "₹1200+" => ["₹700-1200"]
    | _ => []
  | "mood" =>
    match answer with
    | "Cozy & Romantic" => ["Fine Dining"]
    | "Fun & Casual" => ["Home-cooked"]
    | "Fine Dining" => ["Cozy & Romantic"]
    | "Home-cooked" => ["Fun & Casual", "Cozy & Romantic"]
    | _ => []
  | "dish_type" =>
    match answer with
    | "Biriyani/Rice" => ["Curry & Bread"]
    | "Pizza/Pasta" => ["Sushi/Asian"]
    | "Curry & Bread" => ["Biriyani/Rice"]
    | "Sushi/Asian" => ["Pizza/Pasta", "Healthy/Salad"]
    | "Dessert-heavy" => ["Pizza/Pasta"]
    | "Healthy/Salad" => ["Sushi/Asian"]
    | _ => []
  | _ => []

/-- `calculateQuestionScore` (matching.ts lines 245–254). -/
def calculateQuestionScore (category answer1 answer2 : String) : Nat :=
  if answer1 == answer2 then 100
  else if (compatibilityMap category answer1).contains answer2 then 60
  else 20

/-- `quizAnswers.find(a => a.questionId === question.id)` of the source. -/
def findAnswer (answers : List QuizAnswer) (qid : Nat) : Option QuizAnswer :=
  answers.find? (fun a => a.questionId == qid)

/-- `Math.round (num / den)` for non-negative integers, exactly:
`⌊num / den + 1/2⌋`. -/
def jsRound (num den : Nat) : Nat := (2 * num + den) / (2 * den)

/-- The breakdown loop of `calculateMatchTool.execute` (matching.ts lines
268–292): for each fixed question answered by both partners, a row with the
two answers and the per-question score; unanswered questions are skipped. -/
def matchBreakdown (a1 a2 : List QuizAnswer) : List QuestionMatch :=
  QUIZ_QUESTIONS.filterMap (fun q =>
    match findAnswer a1 q.id, findAnswer a2 q.id with
    | some x, some y =>
      some ⟨q.id, x.answer, y.answer,
        calculateQuestionScore q.category x.answer y.answer⟩
    | _, _ => none)

/-- `totalScore` accumulated by the same loop. -/
def totalScore (a1 a2 : List QuizAnswer) : Nat :=
  ((matchBreakdown a1 a2).map (·.score)).sum

/-- `Math.round((totalScore / maxScore) * 100)` with
`maxScore = QUIZ_QUESTIONS.length * 100` (matching.ts lines 294–295). -/
def compatibilityPercent (a1 a2 : List QuizAnswer) : Nat :=
  jsRound (totalScore a1 a2 * 100) (QUIZ_QUESTIONS.length * 100)

/-- The `sharedPreferences` loop (matching.ts lines 297–309). -/
def sharedPreferences (breakdown : List QuestionMatch) : List String :=
  (breakdown.filter (fun m => 60 ≤ m.score)).map (fun m =>
    if m.score == 100 then s!"Both love {m.partner1Answer}"
    else
      match QUIZ_QUESTIONS.find? (fun q => q.id == m.questionId) with
      | some q => s!"{m.partner1Answer} & {m.partner2Answer} ({q.category})"
      | none => s!"{m.partner1Answer} & {m.partner2Answer} (none)")

/-- The three recommendation cards built by `calculateMatchTool.execute`. -/
def buildRecommendations (shared : List String) : List Recommendation :=
  [⟨"delivery", "Order In Together",
    "Order a romantic dinner for two from Swiggy!", shared⟩,
   ⟨"dineout", "Dine Out Date Night",
    "Book a table at a restaurant that matches your combined tastes!", shared⟩,
   ⟨"cook", "Cook Together at Home",
    "Get ingredients from Swiggy Instamart and cook a romantic meal!", shared⟩]

/-- `calculateMatchTool.execute` (matching.ts lines 261–336) on a given room:
errors when the second partner is missing or either quiz is incomplete;
otherwise computes breakdown, compatibility and recommendations, stores the
result on the room (`room.matchResult = matchResult`) and returns it.
(The room-not-found error of the source arises one level up, at the
`roomService.getRoom` lookup, and is not part of this per-room function.) -/
def calculateMatch (room : Room) : Except String (Room × MatchResult) :=
  match room.partner2 with
  | none => .error "Partner 2 has not joined yet"
  | some p2 =>
    if room.partner1.quizComplete && p2.quizComplete then
      let breakdown := matchBreakdown room.partner1.quizAnswers p2.quizAnswers
      let compatibility :=
        jsRound ((breakdown.map (·.score)).sum * 100) (QUIZ_QUESTIONS.length * 100)
      let shared := sharedPreferences breakdown
      let result : MatchResult :=
        ⟨compatibility, breakdown, buildRecommendations shared⟩
      .ok ({ room with matchResult := some result }, result)
    else
      .error "Both partners must complete the quiz first"

/-! ## WebSocket orchestrator (`src/server/websocket.ts`)

The Node event loop runs each `processMessage` invocation as an asynchronous
task; tasks interleave only at `await` points.  The action-choice
interception (lines 95–144) performs its read of `room.chosenAction` and the
subsequent write with no intervening `await`, so each interception is one
atomic step; likewise the `matchSent` check-and-add (lines 221–222) is
synchronous.  Arbitrary interleavings of concurrent messages are therefore
modelled as arbitrary sequences of these atomic steps. -/

/-- Outbound push messages relevant to the modelled paths
(`WSServerMessage` in `models/types.ts`). -/
inductive WSMsg where
  | agentMessage (text : String)
  | actionChosen (action chosenBy : String)
  | authRequired (authUrl : String)
  | errorMsg (text : String)
deriving Repr, DecidableEq

/-- A delivered push: either to the sending connection only
(`sendToClient(senderWs, …)`) or to every connection of the room
(`broadcastToRoom`). -/
inductive Delivery where
  | toSender (m : WSMsg)
  | broadcast (m : WSMsg)
deriving Repr, DecidableEq

/-- `ACTION_MAP` (websocket.ts lines 70–74): the exact button texts that are
intercepted as action choices. -/
def ACTION_MAP (text : String) : Option String :=
  if text == "Let's order in!" then some "delivery"
  else if text == "Let's dine out!" then some "dineout"
  else if text == "Let's cook together!" then some "cook"
  else none

/-- `ACTION_LABELS` (websocket.ts lines 76–80). -/
def actionLabel (action : String) : String :=
  if action == "delivery" then "Order In"
  else if action == "dineout" then "Dine Out"
  else if action == "cook" then "Cook Together"
  else "undefined"

/-- A stashed pending action (`PendingAction`, websocket.ts lines 42–46);
the connection handle is identified by the user id here. -/
structure PendingAction where
  userId : String
  text : String
deriving Repr, DecidableEq

/-- The room together with the room's pending-action slot of the
process-wide `pendingActions` map. -/
structure InterceptState where
  room : Room
  pending : Option PendingAction
deriving Repr, DecidableEq

/-- The authorization environment observed by one interception:
`hasTokens(roomId)` is true, or it is false and `getAuthorizationUrl`
returns a URL, or it is false and `getAuthorizationUrl` throws. -/
inductive AuthEnv where
  | tokens
  | noTokensUrl (url : String)
  | noTokensFail
deriving Repr, DecidableEq

/-- The action-choice interception of `processMessage`
(websocket.ts lines 95–144), as one atomic step.  For a non-action text
nothing happens here (the message continues to the agent).  If an action is
already chosen, the sender alone is told the already-chosen label and the
room is untouched.  Otherwise the action is locked (`chosenAction`,
`chosenBy`), `action_chosen` is broadcast, and then: with tokens held the
flow proceeds to tool injection; without tokens either the pending action
is stashed and `swiggy_auth_required` broadcast, or — when URL generation
fails — an error is sent to the sender only. -/
def interceptAction (s : InterceptState) (userId text : String)
    (auth : AuthEnv) : InterceptState × List Delivery :=
  match ACTION_MAP text with
  | none => (s, [])
  | some actionType =>
    match s.room.chosenAction with
    | some prev =>
      (s, [.toSender (.agentMessage
        s!"Your partner already chose {actionLabel prev}! Let's go with that.")])
    | none =>
      let senderName := ((getPartner s.room userId).map (·.name)).getD userId
      let room' := { s.room with
        chosenAction := some actionType, chosenBy := some userId }
      let chosenMsg : Delivery := .broadcast (.actionChosen actionType senderName)
      match auth with
      | .tokens => ({ s with room := room' }, [chosenMsg])
      | .noTokensUrl url =>
        ({ room := room', pending := some ⟨userId, text⟩ },
         [chosenMsg, .broadcast (.authRequired url)])
      | .noTokensFail =>
        ({ s with room := room' },
         [chosenMsg, .toSender (.errorMsg
           "Failed to start Swiggy authentication. Please try again.")])

/-- One proposal event: who sends which text, under which authorization
environment. -/
structure Proposal where
  userId : String
  text : String
  auth : AuthEnv
deriving Repr, DecidableEq

/-- A sequence of interleaved action proposals, each an atomic
interception step. -/
def runProposals (s : InterceptState) : List Proposal → InterceptState
  | [] => s
  | p :: rest => runProposals (interceptAction s p.userId p.text p.auth).1 rest

/-! ### The match-reveal guard (`matchSent`) -/

/-- The state relevant to the `match_result` reveal of one room: the two
completion flags of the room's partners, the room's membership of the
process-wide `matchSent` set, and the number of `match_result` broadcasts
sent so far. -/
structure RevealState where
  p1Complete : Bool
  p2Complete : Bool
  matchSent : Bool
  broadcasts : Nat
deriving Repr, DecidableEq

/-- The guarded reveal at the end of `processMessage` (websocket.ts lines
221–249): if both partners are complete and the room is not in `matchSent`,
the room is added to `matchSent` and one `match_result` broadcast is sent.
The `has` check and the `add` are adjacent synchronous calls — one atomic
step. -/
def checkAndReveal (s : RevealState) : RevealState :=
  if s.p1Complete && s.p2Complete && !s.matchSent then
    { s with matchSent := true, broadcasts := s.broadcasts + 1 }
  else s

/-- Events affecting the reveal state of a room. -/
inductive RevealEvent where
  /-- A `processMessage` task during which partner 1 completes the quiz
  (the agent's `submit_answer` call sets `quizComplete`), followed by that
  task's guarded reveal check. -/
  | finish1
  /-- The same for partner 2. -/
  | finish2
  /-- A `processMessage` task that completes nothing new, followed by its
  guarded reveal check. -/
  | plainMessage
  /-- The `close` handler when the room's last connection closes
  (websocket.ts lines 363–376): `matchSent.delete(roomId)`. -/
  | lastConnectionClose
deriving Repr, DecidableEq

/-- One atomic reveal-relevant step. -/
def revealStep (s : RevealState) : RevealEvent → RevealState
  | .finish1 => checkAndReveal { s with p1Complete := true }
  | .finish2 => checkAndReveal { s with p2Complete := true }
  | .plainMessage => checkAndReveal s
  | .lastConnectionClose => { s with matchSent := false }

/-- The reveal state of a freshly created room. -/
def initialReveal : RevealState := ⟨false, false, false, 0⟩

/-- Running a sequence of reveal-relevant events. -/
def runReveal (s : RevealState) (events : List RevealEvent) : RevealState :=
  events.foldl revealStep s

/-! ### Capability injection (`connectAndInjectTools` and `agentTools`) -/

/-- A capability-registry entry: an agent tool with its unique-by-intent
name and its invocation contract (description, parameter schema and execute
function, opaque here). -/
structure AgentTool where
  name : String
  contract : String
deriving Repr, DecidableEq

/-- The merge of newly discovered MCP tools into the process-wide
`agentTools` array (`connectAndInjectTools`, websocket.ts lines 263–287):
`for (const tool of mcpTools) agentTools.push(tool)` — each discovered tool
is appended. -/
def injectTools (agentTools mcpTools : List AgentTool) : List AgentTool :=
  mcpTools.foldl (fun acc tool => acc ++ [tool]) agentTools

/-! ## Proof-support definitions and concrete inputs -/

/-- The invariant tying the broadcast count to the `matchSent` flag. -/
def revealInv (s : RevealState) : Prop :=
  s.broadcasts ≤ 1 ∧ (s.matchSent = false → s.broadcasts = 0)

/-- The contribution of one question to `totalScore`: the per-question
score when both partners answered it, 0 otherwise (the loop skips it). -/
def questionScore (a1 a2 : List QuizAnswer) (q : Question) : Nat :=
  match findAnswer a1 q.id, findAnswer a2 q.id with
  | some x, some y => calculateQuestionScore q.category x.answer y.answer
  | _, _ => 0

/-- The `MatchResult` value `calculateMatch` builds from two answer lists. -/
def matchResultOf (a1 a2 : List QuizAnswer) : MatchResult :=
  ⟨compatibilityPercent a1 a2, matchBreakdown a1 a2,
   buildRecommendations (sharedPreferences (matchBreakdown a1 a2))⟩

/-- A full 6-answer submission sequence, out of canonical order. -/
def demoSubs : List (Nat × String) :=
  [(3, "Veg"), (1, "Italian"), (6, "Pizza/Pasta"), (2, "Medium"),
   (5, "Home-cooked"), (4, "₹400-700")]

/-- The answer list `demoSubs` produces. -/
def demoAnswers : List QuizAnswer :=
  [⟨3, "Veg"⟩, ⟨1, "Italian"⟩, ⟨6, "Pizza/Pasta"⟩, ⟨2, "Medium"⟩,
   ⟨5, "Home-cooked"⟩, ⟨4, "₹400-700"⟩]

/-- A complete answer list with mood "Home-cooked". -/
def answersHome : List QuizAnswer :=
  [⟨1, "Italian"⟩, ⟨2, "Medium"⟩, ⟨3, "Veg"⟩, ⟨4, "₹400-700"⟩,
   ⟨5, "Home-cooked"⟩, ⟨6, "Pizza/Pasta"⟩]

/-- The same list except mood "Cozy & Romantic". -/
def answersCozy : List QuizAnswer :=
  [⟨1, "Italian"⟩, ⟨2, "Medium"⟩, ⟨3, "Veg"⟩, ⟨4, "₹400-700"⟩,
   ⟨5, "Cozy & Romantic"⟩, ⟨6, "Pizza/Pasta"⟩]

/-- The list `answersHome` with spice "Mild" instead of "Medium" — the
spice table relates Mild and Medium in both directions. -/
def answersMild : List QuizAnswer :=
  [⟨1, "Italian"⟩, ⟨2, "Mild"⟩, ⟨3, "Veg"⟩, ⟨4, "₹400-700"⟩,
   ⟨5, "Home-cooked"⟩, ⟨6, "Pizza/Pasta"⟩]

/-- First participant of the demo room. -/
def partnerU1 : Partner := ⟨"u1", "Asha", "900", [], false⟩

/-- Second participant of the demo room. -/
def partnerU2 : Partner := ⟨"u2", "Dev", "901", [], false⟩

/-- A freshly created room: one participant, nothing chosen. -/
def roomFresh : Room :=
  ⟨"r1", partnerU1, none, none, "session_r1", 0, none, none⟩

/-- The demo room with both slots occupied. -/
def roomFull : Room := { roomFresh with partner2 := some partnerU2 }

/-- The demo room with both partners, nothing chosen, no pending action. -/
def interceptDemo : InterceptState := ⟨roomFull, none⟩

/-- The demo room after "u1" locked "delivery". -/
def lockedDemo : InterceptState :=
  ⟨{ roomFull with chosenAction := some "delivery", chosenBy := some "u1" },
   none⟩

/-- First partner of the completed demo room. -/
def partnerDone1 : Partner := ⟨"u1", "Asha", "900", answersHome, true⟩

/-- Second partner of the completed demo room. -/
def partnerDone2 : Partner := ⟨"u2", "Dev", "901", answersCozy, true⟩

/-- A room in which both partners finished all 6 questions. -/
def roomDone : Room :=
  ⟨"r2", partnerDone1, some partnerDone2, none, "session_r2", 0, none, none⟩

/-! ## Helper lemmas -/

/-- Case analysis of `submitAnswer`: invalid id, duplicate id, or success,
each with the facts the branch guarantees. -/
theorem submitAnswer_cases (answers : List QuizAnswer) (qid : Nat)
    (ans : String) :
    (submitAnswer answers qid ans = (answers, .invalidQuestion) ∧
      qid ∉ quizIds) ∨
    (submitAnswer answers qid ans = (answers, .alreadyAnswered) ∧
      qid ∈ quizIds ∧ qid ∈ answers.map (·.questionId)) ∨
    (submitAnswer answers qid ans = (answers ++ [⟨qid, ans⟩], .success) ∧
      qid ∈ quizIds ∧ qid ∉ answers.map (·.questionId)) := by
  unfold submitAnswer
  cases hf : QUIZ_QUESTIONS.find? (fun q => q.id == qid) with
  | none =>
    left
    refine ⟨rfl, fun hmem => ?_⟩
    obtain ⟨q, hq, hid⟩ := List.mem_map.mp hmem
    have := List.find?_eq_none.mp hf q hq
    simp [hid] at this
  | some q =>
    have hq : q ∈ QUIZ_QUESTIONS := List.mem_of_find?_eq_some hf
    have hid : q.id = qid := by
      have := List.find?_some hf
      simpa using this
    have hin : qid ∈ quizIds := List.mem_map.mpr ⟨q, hq, hid⟩
    by_cases hdup : answers.any (fun a => a.questionId == qid) = true
    · right; left
      refine ⟨by rw [if_pos hdup], hin, ?_⟩
      obtain ⟨a, ha, hb⟩ := List.any_eq_true.mp hdup
      exact List.mem_map.mpr ⟨a, ha, by simpa using hb⟩
    · right; right
      refine ⟨by rw [if_neg hdup], hin, fun hmem => hdup ?_⟩
      obtain ⟨a, ha, hb⟩ := List.mem_map.mp hmem
      exact List.any_eq_true.mpr ⟨a, ha, by simpa using hb⟩

/-- Invariant of successful submission sequences: the id list stays
duplicate-free and inside the fixed question-id set. -/
theorem submitAll_invariant (subs : List (Nat × String))
    (answers l : List QuizAnswer) (h : submitAll answers subs = some l)
    (hnd : (answers.map (·.questionId)).Nodup)
    (hv : ∀ a ∈ answers, a.questionId ∈ quizIds) :
    (l.map (·.questionId)).Nodup ∧ ∀ a ∈ l, a.questionId ∈ quizIds := by
  induction subs generalizing answers with
  | nil =>
    simp only [submitAll, Option.some.injEq] at h
    subst h
    exact ⟨hnd, hv⟩
  | cons p rest ih =>
    obtain ⟨qid, ans⟩ := p
    simp only [submitAll] at h
    rcases submitAnswer_cases answers qid ans with
      ⟨he, -⟩ | ⟨he, -, -⟩ | ⟨he, hin, hnm⟩
    · rw [he] at h; exact absurd h (by simp)
    · rw [he] at h; exact absurd h (by simp)
    · rw [he] at h
      refine ih (answers ++ [⟨qid, ans⟩]) h ?_ ?_
      · rw [List.map_append, List.nodup_append]
        refine ⟨hnd, by simp, fun x hx hx2 => ?_⟩
        have : x = qid := by simpa using hx2
        subst this
        exact hnm hx
      · intro a ha
        rcases List.mem_append.mp ha with h1 | h1
        · exact hv a h1
        · simp at h1; subst h1; exact hin

/-! ## Claim theorems -/

/-- **C1** (code bug evidence): the capability merge of
`connectAndInjectTools` appends every discovered tool to the process-wide
`agentTools` array with no name-based replacement, so merging an entry named
`"x"` into a set that already holds an entry named `"x"` leaves two entries
with that name — the spec's and the README's last-writer-wins-by-name
replacement does not happen. -/
theorem c1_inject_duplicate_names :
    injectTools (injectTools [] [⟨"x", "v1"⟩]) [⟨"x", "v2"⟩] =
      [⟨"x", "v1"⟩, ⟨"x", "v2"⟩] ∧
    ((injectTools (injectTools [] [⟨"x", "v1"⟩]) [⟨"x", "v2"⟩]).filter
      (fun t => t.name == "x")).length = 2 :=
  ⟨rfl, rfl⟩

/-- **C6**: starting from the empty answer list, after any sequence of
successful `submitAnswer` calls, `isComplete` is true exactly when the set
of submitted question ids equals the full fixed question-id set, whatever
the submission order was. -/
theorem c6_isComplete_iff_full_id_set (subs : List (Nat × String))
    (l : List QuizAnswer) (h : submitAll [] subs = some l) :
    isComplete l = true ↔
      (l.map (·.questionId)).toFinset = (QUIZ_QUESTIONS.map (·.id)).toFinset := by
  obtain ⟨hnd, hv⟩ := submitAll_invariant subs [] l h (by simp) (by simp)
  have hsub : (l.map (·.questionId)).toFinset ⊆
      (QUIZ_QUESTIONS.map (·.id)).toFinset := by
    intro x hx
    rw [List.mem_toFinset] at hx ⊢
    obtain ⟨a, ha, rfl⟩ := List.mem_map.mp hx
    exact hv a ha
  have hcard : (l.map (·.questionId)).toFinset.card = l.length := by
    rw [List.toFinset_card_of_nodup hnd, List.length_map]
  have hT : (QUIZ_QUESTIONS.map (·.id)).toFinset.card = 6 := by decide
  have hlen : QUIZ_QUESTIONS.length = 6 := rfl
  constructor
  · intro hc
    have h6 : 6 ≤ l.length := by
      have := of_decide_eq_true hc
      omega
    refine Finset.eq_of_subset_of_card_le hsub ?_
    rw [hT, hcard]
    exact h6
  · intro heq
    have h6 : l.length = 6 := by rw [← hcard, heq, hT]
    unfold isComplete
    rw [hlen, h6]
    decide

/-- **C7**: on any answer list whose ids came from successful submissions
(hence are valid), submitting an id already present always fails with the
already-answered error and returns the list unchanged; submitting an id
outside the fixed question set always fails with the invalid-question error
and returns the list unchanged — no partial mutation on any failure. -/
theorem c7_submit_failures_leave_list_unchanged (answers : List QuizAnswer)
    (qid : Nat) (ans : String) :
    (qid ∈ quizIds → qid ∈ answers.map (·.questionId) →
      submitAnswer answers qid ans = (answers, .alreadyAnswered)) ∧
    (qid ∉ quizIds →
      submitAnswer answers qid ans = (answers, .invalidQuestion)) := by
  rcases submitAnswer_cases answers qid ans with
    ⟨he, hn⟩ | ⟨he, hin, -⟩ | ⟨he, hin, hnm⟩
  · exact ⟨fun hv _ => absurd hv hn, fun _ => he⟩
  · exact ⟨fun _ _ => he, fun hnv => absurd hin hnv⟩
  · exact ⟨fun _ hmem => absurd hmem hnm, fun hnv => absurd hin hnv⟩

/-- **C9**: join on an existing room fails with the full-room error when
both slots are occupied and with the already-in error when the joiner's id
equals the first participant's (slots not both occupied); both failures
leave the room unchanged, and a successful join sets the second slot to the
joiner with an empty answer list. -/
theorem c9_join_errors_and_success (room : Room) (userId name phone : String) :
    (room.partner2.isSome →
      joinRoom room userId name phone = (room, some "Room is full")) ∧
    (room.partner2 = none → room.partner1.userId = userId →
      joinRoom room userId name phone =
        (room, some "You are already in this room")) ∧
    (room.partner2 = none → room.partner1.userId ≠ userId →
      joinRoom room userId name phone =
        ({ room with partner2 := some ⟨userId, name, phone, [], false⟩ },
         none)) := by
  refine ⟨fun h => ?_, fun h2 h1 => ?_, fun h2 h1 => ?_⟩
  · simp [joinRoom, h]
  · simp [joinRoom, h2, h1]
  · simp [joinRoom, h2, h1]

/-! ## Concrete demo inputs for witnesses and counterexamples -/

/-- Witness for C6 at a concrete out-of-order submission sequence. -/
theorem c6_witness :
    submitAll [] demoSubs = some demoAnswers ∧
    (isComplete demoAnswers = true ↔
      (demoAnswers.map (·.questionId)).toFinset =
        (QUIZ_QUESTIONS.map (·.id)).toFinset) :=
  ⟨rfl, c6_isComplete_iff_full_id_set demoSubs demoAnswers rfl⟩

/-- Witness for C7: a duplicate id and an invalid id on a concrete list. -/
theorem c7_witness :
    submitAnswer demoAnswers 1 "Sushi/Asian" =
      (demoAnswers, .alreadyAnswered) ∧
    submitAnswer demoAnswers 99 "anything" =
      (demoAnswers, .invalidQuestion) :=
  ⟨(c7_submit_failures_leave_list_unchanged demoAnswers 1 "Sushi/Asian").1
      (by decide) (by decide),
   (c7_submit_failures_leave_list_unchanged demoAnswers 99 "anything").2
      (by decide)⟩

/-- Witness for C9 at concrete rooms. -/
theorem c9_witness :
    joinRoom roomFull "u3" "Kiran" "902" = (roomFull, some "Room is full") ∧
    joinRoom roomFresh "u1" "Asha" "900" =
      (roomFresh, some "You are already in this room") ∧
    joinRoom roomFresh "u2" "Dev" "901" =
      ({ roomFresh with partner2 := some ⟨"u2", "Dev", "901", [], false⟩ },
       none) :=
  ⟨(c9_join_errors_and_success roomFull "u3" "Kiran" "902").1 (by decide),
   (c9_join_errors_and_success roomFresh "u1" "Asha" "900").2.1 rfl rfl,
   (c9_join_errors_and_success roomFresh "u2" "Dev" "901").2.2 rfl (by decide)⟩

/-! ## Action-lock lemmas -/

/-- An action proposal on a room whose action is already chosen: the state
is returned untouched and the sender alone is told the already-chosen
label. -/
theorem interceptAction_of_chosen (s : InterceptState) (u t : String)
    (auth : AuthEnv) (prev : String) (h : s.room.chosenAction = some prev)
    (b : String) (hb : ACTION_MAP t = some b) :
    interceptAction s u t auth =
      (s, [.toSender (.agentMessage
        s!"Your partner already chose {actionLabel prev}! Let's go with that.")]) := by
  unfold interceptAction
  rw [hb, h]

/-- Any interception step on a locked room leaves the state untouched. -/
theorem interceptAction_fst_of_chosen (s : InterceptState) (u t : String)
    (auth : AuthEnv) (prev : String) (h : s.room.chosenAction = some prev) :
    (interceptAction s u t auth).1 = s := by
  unfold interceptAction
  cases hm : ACTION_MAP t with
  | none => rfl
  | some b => rw [h]

/-- A whole proposal sequence on a locked room leaves the state untouched. -/
theorem runProposals_of_chosen (ps : List Proposal) (s : InterceptState)
    (prev : String) (h : s.room.chosenAction = some prev) :
    runProposals s ps = s := by
  induction ps with
  | nil => rfl
  | cons p rest ih =>
    unfold runProposals
    rw [interceptAction_fst_of_chosen s p.userId p.text p.auth prev h]
    exact ih

/-- A first proposal on an unlocked room locks the proposed action and the
proposer, whatever the authorization environment does. -/
theorem interceptAction_locks (s : InterceptState) (u t : String)
    (auth : AuthEnv) (a : String) (ha : ACTION_MAP t = some a)
    (h0 : s.room.chosenAction = none) :
    (interceptAction s u t auth).1.room.chosenAction = some a ∧
    (interceptAction s u t auth).1.room.chosenBy = some u := by
  unfold interceptAction
  rw [ha, h0]
  cases auth <;> exact ⟨rfl, rfl⟩

/-- **C2**: `chosenAction` transitions null → concrete value exactly once.
The first proposal of any nonempty interleaved proposal sequence on an
unlocked room sets `chosenAction` to the proposed action and `chosenBy` to
the proposer, and no later step changes them; moreover every proposal on a
locked room is rejected, leaves the state untouched, and tells the caller
the already-chosen value's label.  (The read of `room.chosenAction` and the
write are separated by no `await` in `processMessage`, so each interception
is one atomic step of the Node event loop; the proposal list ranges over
all interleavings of such steps.) -/
theorem c2_action_lock_first_writer_wins (s0 : InterceptState)
    (p : Proposal) (rest : List Proposal) (a : String)
    (h0 : s0.room.chosenAction = none) (ha : ACTION_MAP p.text = some a) :
    ((runProposals s0 (p :: rest)).room.chosenAction = some a ∧
     (runProposals s0 (p :: rest)).room.chosenBy = some p.userId) ∧
    (∀ (s : InterceptState) (prev : String), s.room.chosenAction = some prev →
      ∀ (u t b : String) (auth : AuthEnv), ACTION_MAP t = some b →
        interceptAction s u t auth =
          (s, [.toSender (.agentMessage
            s!"Your partner already chose {actionLabel prev}! Let's go with that.")])) := by
  refine ⟨?_, fun s prev h u t b auth hb =>
    interceptAction_of_chosen s u t auth prev h b hb⟩
  have hlock := interceptAction_locks s0 p.userId p.text p.auth a ha h0
  have hrun : runProposals s0 (p :: rest) =
      (interceptAction s0 p.userId p.text p.auth).1 := by
    unfold runProposals
    exact runProposals_of_chosen rest _ a hlock.1
  rw [hrun]
  exact hlock

/-- Witness for C2: "u1" proposes order-in, then "u2" proposes dine-out;
the lock holds "delivery"/"u1" and the second caller is told "Order In". -/
theorem c2_witness :
    (runProposals interceptDemo
      [⟨"u1", "Let's order in!", .tokens⟩,
       ⟨"u2", "Let's dine out!", .noTokensFail⟩]).room.chosenAction =
      some "delivery" ∧
    (runProposals interceptDemo
      [⟨"u1", "Let's order in!", .tokens⟩,
       ⟨"u2", "Let's dine out!", .noTokensFail⟩]).room.chosenBy = some "u1" ∧
    interceptAction lockedDemo "u2" "Let's dine out!" .tokens =
      (lockedDemo, [.toSender (.agentMessage
        "Your partner already chose Order In! Let's go with that.")]) := by
  have h := c2_action_lock_first_writer_wins interceptDemo
    ⟨"u1", "Let's order in!", .tokens⟩
    [⟨"u2", "Let's dine out!", .noTokensFail⟩] "delivery" rfl rfl
  refine ⟨h.1.1, h.1.2, ?_⟩
  exact h.2 lockedDemo "delivery" rfl "u2" "Let's dine out!" "dineout" .tokens rfl

/-- **C5 counterexample**: a proposal on an unlocked room whose
authorization-URL request fails still locks the action — `chosenAction` is
`some "delivery"` after the failed proposal though it was `none` before —
because `processMessage` sets the lock before attempting the URL. -/
theorem c5_auth_failure_still_locks :
    interceptDemo.room.chosenAction = none ∧
    (interceptAction interceptDemo "u1" "Let's order in!"
      .noTokensFail).1.room.chosenAction = some "delivery" ∧
    (interceptAction interceptDemo "u1" "Let's order in!"
      .noTokensFail).1.room.chosenAction ≠ interceptDemo.room.chosenAction := by
  exact ⟨rfl, rfl, by decide⟩

/-- **C5 amended**: when the authorization-URL request of a first proposal
fails, an error is reported to the original requester only and no pending
action is stashed — but the room keeps the freshly locked `chosenAction`
and `chosenBy` (the lock precedes the authorization attempt). -/
theorem c5_auth_failure_reports_error_no_stash (s : InterceptState)
    (u t a : String) (ha : ACTION_MAP t = some a)
    (h0 : s.room.chosenAction = none) :
    interceptAction s u t .noTokensFail =
      ({ room :=
          { s.room with chosenAction := some a, chosenBy := some u },
         pending := s.pending },
       [.broadcast (.actionChosen a (((getPartner s.room u).map (·.name)).getD u)),
        .toSender (.errorMsg
          "Failed to start Swiggy authentication. Please try again.")]) := by
  unfold interceptAction
  rw [ha, h0]

/-- Witness for C5's amended statement at the demo room. -/
theorem c5_witness :
    interceptAction interceptDemo "u1" "Let's order in!" .noTokensFail =
      ({ room :=
          { roomFull with chosenAction := some "delivery", chosenBy := some "u1" },
         pending := none },
       [.broadcast (.actionChosen "delivery" "Asha"),
        .toSender (.errorMsg
          "Failed to start Swiggy authentication. Please try again.")]) :=
  c5_auth_failure_reports_error_no_stash interceptDemo "u1"
    "Let's order in!" "delivery" rfl rfl

/-! ## Reveal-guard lemmas -/

/-- The guarded check-and-broadcast preserves the invariant. -/
theorem checkAndReveal_inv (s : RevealState) (h : revealInv s) :
    revealInv (checkAndReveal s) := by
  unfold checkAndReveal
  by_cases hc : (s.p1Complete && s.p2Complete && !s.matchSent) = true
  · rw [if_pos hc]
    have hms : s.matchSent = false := by
      simp only [Bool.and_eq_true, Bool.not_eq_true'] at hc
      exact hc.2
    have h0 := h.2 hms
    refine ⟨?_, fun hf => by simp at hf⟩
    show s.broadcasts + 1 ≤ 1
    omega
  · rw [if_neg hc]
    exact h

/-- Every reveal step other than a last-connection close preserves the
invariant. -/
theorem revealStep_inv (s : RevealState) (e : RevealEvent)
    (he : e ≠ .lastConnectionClose) (h : revealInv s) :
    revealInv (revealStep s e) := by
  cases e with
  | finish1 => exact checkAndReveal_inv _ ⟨h.1, h.2⟩
  | finish2 => exact checkAndReveal_inv _ ⟨h.1, h.2⟩
  | plainMessage => exact checkAndReveal_inv _ h
  | lastConnectionClose => exact absurd rfl he

/-- The invariant holds along any close-free event sequence. -/
theorem runReveal_inv (events : List RevealEvent)
    (hnc : RevealEvent.lastConnectionClose ∉ events) :
    ∀ s, revealInv s → revealInv (runReveal s events) := by
  induction events with
  | nil => exact fun s h => h
  | cons e rest ih =>
    intro s h
    have he : e ≠ RevealEvent.lastConnectionClose := by
      intro hh
      exact hnc (hh ▸ List.mem_cons_self e rest)
    have hrest : RevealEvent.lastConnectionClose ∉ rest :=
      fun hm => hnc (List.mem_cons_of_mem e hm)
    exact ih hrest (revealStep s e) (revealStep_inv s e he h)

/-- **C4 counterexample**: over a room's lifetime more than one
`match_result` broadcast can be sent — after both partners complete (one
broadcast), the last connection closing clears the room's `matchSent` flag,
and a message processed after a reconnect broadcasts a second time. -/
theorem c4_two_broadcasts_after_reconnect :
    (runReveal initialReveal
      [.finish1, .finish2, .lastConnectionClose, .plainMessage]).broadcasts
      = 2 := rfl

/-- **C4 amended**: as long as the room's last connection never closes (the
only event that clears `matchSent`), at most one `match_result` broadcast
is sent, over every interleaving of the atomic per-message completion
checks; in particular the two orders of the racing "each partner completes
last question" steps each produce exactly one broadcast. -/
theorem c4_at_most_one_broadcast_without_close (events : List RevealEvent)
    (hnc : RevealEvent.lastConnectionClose ∉ events) :
    (runReveal initialReveal events).broadcasts ≤ 1 ∧
    (runReveal initialReveal [.finish1, .finish2]).broadcasts = 1 ∧
    (runReveal initialReveal [.finish2, .finish1]).broadcasts = 1 :=
  ⟨(runReveal_inv events hnc initialReveal ⟨by decide, fun _ => rfl⟩).1,
   rfl, rfl⟩

/-- Witness for C4's amended statement on a concrete close-free
interleaving. -/
theorem c4_witness :
    (runReveal initialReveal
      [.plainMessage, .finish1, .plainMessage, .finish2,
       .plainMessage]).broadcasts ≤ 1 :=
  (c4_at_most_one_broadcast_without_close
    [.plainMessage, .finish1, .plainMessage, .finish2, .plainMessage]
    (by decide)).1

/-! ## Scoring lemmas -/

/-- The breakdown-score sum over any question list equals the sum of
per-question contributions. -/
theorem breakdown_scores_eq (qs : List Question) (a1 a2 : List QuizAnswer) :
    ((qs.filterMap (fun q =>
      match findAnswer a1 q.id, findAnswer a2 q.id with
      | some x, some y =>
        some (⟨q.id, x.answer, y.answer,
          calculateQuestionScore q.category x.answer y.answer⟩ : QuestionMatch)
      | _, _ => none)).map (·.score)).sum =
    (qs.map (questionScore a1 a2)).sum := by
  induction qs with
  | nil => rfl
  | cons q rest ih =>
    rw [List.filterMap_cons, List.map_cons, List.sum_cons]
    cases hx : findAnswer a1 q.id with
    | none =>
      have hq : questionScore a1 a2 q = 0 := by
        unfold questionScore
        rw [hx]
      rw [hq, Nat.zero_add]
      exact ih
    | some x =>
      cases hy : findAnswer a2 q.id with
      | none =>
        have hq : questionScore a1 a2 q = 0 := by
          unfold questionScore
          rw [hx, hy]
        rw [hq, Nat.zero_add]
        exact ih
      | some y =>
        have hq : questionScore a1 a2 q =
            calculateQuestionScore q.category x.answer y.answer := by
          unfold questionScore
          rw [hx, hy]
        rw [hq]
        exact congrArg
          (fun n => calculateQuestionScore q.category x.answer y.answer + n) ih

/-- `totalScore` as a sum of per-question contributions. -/
theorem totalScore_eq_sum (a1 a2 : List QuizAnswer) :
    totalScore a1 a2 = (QUIZ_QUESTIONS.map (questionScore a1 a2)).sum :=
  breakdown_scores_eq QUIZ_QUESTIONS a1 a2

/-- The per-question score is symmetric whenever the category's lookup
relates the two given answers in both directions or in neither. -/
theorem calculateQuestionScore_symm (c x y : String)
    (h : (compatibilityMap c x).contains y = (compatibilityMap c y).contains x) :
    calculateQuestionScore c x y = calculateQuestionScore c y x := by
  by_cases hxy : x = y
  · subst hxy; rfl
  · have h1 : (x == y) = false := beq_eq_false_iff_ne.mpr hxy
    have h2 : (y == x) = false := beq_eq_false_iff_ne.mpr (Ne.symm hxy)
    simp only [calculateQuestionScore, h1, h2, h]

/-- Per-question contribution symmetry, for one question, from the
direction-agnostic lookup hypothesis on the answers actually found. -/
theorem questionScore_symm (a1 a2 : List QuizAnswer) (q : Question)
    (h : ∀ x y : QuizAnswer, findAnswer a1 q.id = some x →
      findAnswer a2 q.id = some y →
      (compatibilityMap q.category x.answer).contains y.answer =
      (compatibilityMap q.category y.answer).contains x.answer) :
    questionScore a1 a2 q = questionScore a2 a1 q := by
  unfold questionScore
  cases hx : findAnswer a1 q.id with
  | none =>
    cases hy : findAnswer a2 q.id <;> rfl
  | some x =>
    cases hy : findAnswer a2 q.id with
    | none => rfl
    | some y => exact calculateQuestionScore_symm _ _ _ (h x y hx hy)

/-- Per-question scores always lie between 20 and 100. -/
theorem calculateQuestionScore_bounds (c x y : String) :
    20 ≤ calculateQuestionScore c x y ∧ calculateQuestionScore c x y ≤ 100 := by
  unfold calculateQuestionScore
  by_cases h1 : (x == y) = true
  · rw [if_pos h1]; omega
  · rw [if_neg h1]
    by_cases h2 : ((compatibilityMap c x).contains y) = true
    · rw [if_pos h2]; omega
    · rw [if_neg h2]; omega

/-- Sums of per-question values bounded between 20 and 100 lie between
`20 * length` and `100 * length`. -/
theorem sum_bounds_of_forall (l : List Question) (f : Question → Nat)
    (h : ∀ q ∈ l, 20 ≤ f q ∧ f q ≤ 100) :
    20 * l.length ≤ (l.map f).sum ∧ (l.map f).sum ≤ 100 * l.length := by
  induction l with
  | nil => simp
  | cons q rest ih =>
    rw [List.map_cons, List.sum_cons, List.length_cons]
    have hq := h q (List.mem_cons_self q rest)
    have hr := ih (fun x hx => h x (List.mem_cons_of_mem q hx))
    constructor <;> omega

/-- **C3 counterexample**: the aggregate percent is not symmetric.  Two
complete answer lists that differ only in mood — "Home-cooked" against
"Cozy & Romantic" — score 93 one way and 87 the other, because the mood
table relates "Home-cooked" to "Cozy & Romantic" but not conversely. -/
theorem c3_percent_not_symmetric :
    compatibilityPercent answersHome answersCozy = 93 ∧
    compatibilityPercent answersCozy answersHome = 87 ∧
    compatibilityPercent answersHome answersCozy ≠
      compatibilityPercent answersCozy answersHome :=
  ⟨rfl, rfl, by decide⟩

/-- **C3 amended**: the aggregate percent is symmetric whenever, for every
question answered by both, the category's compatibility lookup relates the
two given answers in both directions or in neither (the identical case is
symmetric unconditionally); symmetry can fail — and by
`c3_percent_not_symmetric` does fail — exactly at direction-only table
entries such as mood "Home-cooked" / "Cozy & Romantic". -/
theorem c3_percent_symmetric_of_symmetric_pairs (a1 a2 : List QuizAnswer)
    (h : ∀ q ∈ QUIZ_QUESTIONS, ∀ x y : QuizAnswer,
      findAnswer a1 q.id = some x → findAnswer a2 q.id = some y →
      (compatibilityMap q.category x.answer).contains y.answer =
      (compatibilityMap q.category y.answer).contains x.answer) :
    compatibilityPercent a1 a2 = compatibilityPercent a2 a1 := by
  unfold compatibilityPercent
  have hts : totalScore a1 a2 = totalScore a2 a1 := by
    rw [totalScore_eq_sum, totalScore_eq_sum]
    have hmap : QUIZ_QUESTIONS.map (questionScore a1 a2) =
        QUIZ_QUESTIONS.map (questionScore a2 a1) :=
      List.map_congr_left (fun q hq => questionScore_symm a1 a2 q (h q hq))
    rw [hmap]
  rw [hts]

/-- Witness for C3's amended statement: two complete lists differing only
in a symmetric spice pair have a symmetric percent. -/
theorem c3_witness :
    compatibilityPercent answersHome answersMild =
      compatibilityPercent answersMild answersHome :=
  c3_percent_symmetric_of_symmetric_pairs answersHome answersMild (by
    intro q hq x y hx hy
    fin_cases hq <;>
      (obtain rfl := Option.some.inj hx
       obtain rfl := Option.some.inj hy
       decide))

/-- **C8**: the per-question score is 100 for identical answers, 60 when
the category lookup relates the two values, 20 otherwise; the aggregate is
`round(total / (questionCount * 100) * 100)`; and two complete answer lists
with every pair identical score exactly 100. -/
theorem c8_score_formula_and_identical_is_100 :
    (∀ c x y : String, calculateQuestionScore c x y =
      if x = y then 100
      else if (compatibilityMap c x).contains y = true then 60
      else 20) ∧
    (∀ a1 a2 : List QuizAnswer, compatibilityPercent a1 a2 =
      jsRound (totalScore a1 a2 * 100) (QUIZ_QUESTIONS.length * 100)) ∧
    (∀ a1 a2 : List QuizAnswer,
      (∀ q ∈ QUIZ_QUESTIONS, ∃ x, findAnswer a1 q.id = some x ∧
        findAnswer a2 q.id = some x) →
      compatibilityPercent a1 a2 = 100) := by
  refine ⟨?_, fun a1 a2 => rfl, ?_⟩
  · intro c x y
    simp only [calculateQuestionScore, beq_iff_eq]
  · intro a1 a2 h
    have hs : totalScore a1 a2 = 600 := by
      rw [totalScore_eq_sum]
      have hall : ∀ q ∈ QUIZ_QUESTIONS, questionScore a1 a2 q = 100 := by
        intro q hq
        obtain ⟨x, hx, hy⟩ := h q hq
        unfold questionScore
        rw [hx, hy]
        show calculateQuestionScore q.category x.answer x.answer = 100
        unfold calculateQuestionScore
        rw [if_pos (beq_self_eq_true x.answer)]
      rw [List.map_congr_left hall]
      rfl
    unfold compatibilityPercent
    rw [hs]
    rfl

/-- Witness for C8's identical-lists conjunct at a concrete list. -/
theorem c8_witness : compatibilityPercent demoAnswers demoAnswers = 100 :=
  c8_score_formula_and_identical_is_100.2.2 demoAnswers demoAnswers (by
    intro q hq
    fin_cases hq <;> exact ⟨_, rfl, rfl⟩)

/-- **C10**: once both partners are present and have completed all 6 fixed
questions, the match calculation succeeds, the compatibility percent is
between 20 and 100 inclusive, the result is stored in the room's
`matchResult`, and the percent is the scoring engine's. -/
theorem c10_match_bounds_and_stored (room : Room) (p2 : Partner)
    (h2 : room.partner2 = some p2)
    (hc1 : room.partner1.quizComplete = true) (hc2 : p2.quizComplete = true)
    (hall : ∀ q ∈ QUIZ_QUESTIONS,
      (findAnswer room.partner1.quizAnswers q.id).isSome ∧
      (findAnswer p2.quizAnswers q.id).isSome) :
    ∃ (updated : Room) (res : MatchResult),
      calculateMatch room = .ok (updated, res) ∧
      20 ≤ res.compatibility ∧ res.compatibility ≤ 100 ∧
      updated.matchResult = some res ∧
      res.compatibility =
        compatibilityPercent room.partner1.quizAnswers p2.quizAnswers := by
  have hbounds :
      120 ≤ totalScore room.partner1.quizAnswers p2.quizAnswers ∧
      totalScore room.partner1.quizAnswers p2.quizAnswers ≤ 600 := by
    rw [totalScore_eq_sum]
    have hb : ∀ q ∈ QUIZ_QUESTIONS,
        20 ≤ questionScore room.partner1.quizAnswers p2.quizAnswers q ∧
        questionScore room.partner1.quizAnswers p2.quizAnswers q ≤ 100 := by
      intro q hq
      obtain ⟨ha1, ha2⟩ := hall q hq
      obtain ⟨x, hx⟩ := Option.isSome_iff_exists.mp ha1
      obtain ⟨y, hy⟩ := Option.isSome_iff_exists.mp ha2
      unfold questionScore
      rw [hx, hy]
      exact calculateQuestionScore_bounds q.category x.answer y.answer
    simpa using sum_bounds_of_forall QUIZ_QUESTIONS _ hb
  have hcalc : calculateMatch room =
      .ok ({ room with matchResult := some (matchResultOf room.partner1.quizAnswers p2.quizAnswers) },
           matchResultOf room.partner1.quizAnswers p2.quizAnswers) := by
    unfold calculateMatch
    rw [h2]
    simp only [hc1, hc2, Bool.and_self, if_true]
    rfl
  refine ⟨_, _, hcalc, ?_, ?_, rfl, rfl⟩
  · show 20 ≤ compatibilityPercent room.partner1.quizAnswers p2.quizAnswers
    unfold compatibilityPercent jsRound
    have h1 := hbounds.1
    have hq6 : QUIZ_QUESTIONS.length = 6 := rfl
    rw [hq6]
    omega
  · show compatibilityPercent room.partner1.quizAnswers p2.quizAnswers ≤ 100
    unfold compatibilityPercent jsRound
    have h1 := hbounds.2
    have hq6 : QUIZ_QUESTIONS.length = 6 := rfl
    rw [hq6]
    omega

/-- Witness for C10 at the completed demo room. -/
theorem c10_witness :
    ∃ (updated : Room) (res : MatchResult),
      calculateMatch roomDone = .ok (updated, res) ∧
      20 ≤ res.compatibility ∧ res.compatibility ≤ 100 ∧
      updated.matchResult = some res ∧
      res.compatibility = compatibilityPercent answersHome answersCozy :=
  c10_match_bounds_and_stored roomDone partnerDone2 rfl rfl rfl (by decide)

end SwiggyCupid
